import Mathlib

/-!
Verification of the PyBroMo theory notebook
("Theory - Introduction to Brownian Motion simulation.ipynb").

The notebook is a linear sequence of scalar formula evaluations over
floating-point literals.  We embed the arithmetic shallowly:

* decimal literals become exact rationals (via `OfScientific` on `ℚ`);
* `np.pi` is embedded as the exact rational value of the IEEE-754 double
  that `numpy` supplies (`884279719003555 / 281474976710656`);
* `np.sqrt` is embedded as `Real.sqrt` on `ℝ` (the ideal-real reading of
  the floating-point square root), with the rational operands coerced;
* the notebook's sequence of cell executions, which reassigns the
  variables `D`, `Du` and `time`, is embedded as a state record threaded
  through one transition function per code cell.
-/

namespace PyBroMoTheory

/-! ## Constants and per-cell values (from the notebook's code cells) -/

/-- Cell 5: `d = 5e-9` — particle radius in meters. -/
def d : ℚ := 5e-9

/-- Cell 5: `eta = 1.0e-3` — viscosity of water (Pa·s) at 293 K. -/
def eta : ℚ := 1.0e-3

/-- Cell 5: `kB = 1.38e-23` — Boltzmann constant. -/
def kB : ℚ := 1.38e-23

/-- Cell 5: `T = 293` — temperature in Kelvin. -/
def T : ℚ := 293

/-- The exact rational value of the IEEE-754 double `np.pi` used by the
notebook (`3.141592653589793…`). -/
def np_pi : ℚ := 884279719003555 / 281474976710656

/-- Cell 5: `D = kB*T/(3*np.pi*eta*d)` — Stokes–Einstein diffusion
coefficient in m²/s (the first of the two assignments to `D`). -/
def D_stokes : ℚ := kB * T / (3 * np_pi * eta * d)

/-- Cell 7: `Du = D*(1e9)**2/(1e6)` — the Stokes–Einstein `D` rescaled to
nm²/µs. -/
def Du_stokes : ℚ := D_stokes * (1e9) ^ 2 / 1e6

/-- Cell 9: `S_spot = 0.8e-6`. -/
def S_spot : ℚ := 0.8e-6

/-- Cell 9: `N = 3` — number of spatial dimensions. -/
def N : ℚ := 3

/-- Cell 9: `tau_spot = 1e-3`. -/
def tau_spot : ℚ := 1e-3

/-- Cell 9: `D = S_spot**2 / (2*N*tau_spot)` — spot-derived diffusion
coefficient in m²/s (the second assignment to `D`). -/
def D_spot : ℚ := S_spot ^ 2 / (2 * N * tau_spot)

/-- Cell 10: `Du = D*(1e6)**2/(1e3)` — the spot-derived `D` rescaled to
µm²/ms. -/
def Du_spot : ℚ := D_spot * (1e6) ^ 2 / 1e3

/-- Cell 14: `time = 10.` — seconds. -/
def time14 : ℚ := 10

/-- Cell 14: `sigma = np.sqrt(2*D*3*time)` with `D` the spot-derived
value in scope at that point. -/
noncomputable def sigma14 : ℝ := Real.sqrt (2 * (D_spot : ℝ) * 3 * (time14 : ℝ))

/-- Cell 16: `space = 0.1e-3` — meters. -/
def space : ℚ := 0.1e-3

/-- Cell 16: `time = 1.*space**2/(2*D*3)` with `D` the spot-derived value
in scope at that point. -/
def time16 : ℚ := 1 * space ^ 2 / (2 * D_spot * 3)

/-! ## The formulas as functions of their inputs

The notebook evaluates each formula once at literal inputs; the spec
(§4.1) reads each evaluation as a pure function of those inputs.  The
definitions below are the cell expressions with the literals abstracted. -/

/-- Cell 9's expression `S_spot**2 / (2*N*tau_spot)` as a function of its
inputs (`n` is the dimensionality, a positive integer per the spec). -/
def D_spot_fn (S : ℚ) (n : ℕ) (tau : ℚ) : ℚ := S ^ 2 / (2 * (n : ℚ) * tau)

/-- Cell 14's expression `np.sqrt(2*D*N*time)` as a function of its
inputs (the notebook instantiates the dimensionality at `3`). -/
noncomputable def sigma_fn (Dv n t : ℝ) : ℝ := Real.sqrt (2 * Dv * n * t)

/-- Cell 16's expression `space**2/(2*D*N)` as a function of its inputs
(the notebook instantiates the dimensionality at `3`). -/
noncomputable def time_fn (sp Dv n : ℝ) : ℝ := sp ^ 2 / (2 * Dv * n)

/-- Cell 7's expression `D*(1e9)**2/(1e6)` (m²/s to nm²/µs) as a
function of `D`. -/
def Du_nm_us_fn (Dv : ℚ) : ℚ := Dv * (1e9) ^ 2 / 1e6

/-- Cell 10's expression `D*(1e6)**2/(1e3)` (m²/s to µm²/ms) as a
function of `D`. -/
def Du_um_ms_fn (Dv : ℚ) : ℚ := Dv * (1e6) ^ 2 / 1e3

/-! ## The notebook as a state machine

Cells 5–16 execute in order in one shared namespace; `D`, `Du` and
`time` are each assigned twice.  `NbState` holds the four mutable
variables; each `cellK` function is the effect of code cell K. -/

/-- The notebook's mutable variables (all start unset; `0` stands for
"not yet assigned" and is never read before the first assignment). -/
structure NbState where
  D : ℝ := 0
  Du : ℝ := 0
  time : ℝ := 0
  sigma : ℝ := 0

/-- Cell 5: assigns `D` from the Stokes–Einstein relation. -/
noncomputable def cell5 (s : NbState) : NbState := { s with D := (D_stokes : ℝ) }

/-- Cell 7: `Du = D*(1e9)**2/(1e6)` reading the current `D`. -/
noncomputable def cell7 (s : NbState) : NbState :=
  { s with Du := s.D * (1e9) ^ 2 / 1e6 }

/-- Cell 9: reassigns `D` from the spot size and characteristic time,
discarding the Stokes–Einstein value. -/
noncomputable def cell9 (s : NbState) : NbState := { s with D := (D_spot : ℝ) }

/-- Cell 10: `Du = D*(1e6)**2/(1e3)` reading the current `D`. -/
noncomputable def cell10 (s : NbState) : NbState :=
  { s with Du := s.D * (1e6) ^ 2 / 1e3 }

/-- Cell 14: `time = 10.; sigma = np.sqrt(2*D*3*time)` reading the
current `D`. -/
noncomputable def cell14 (s : NbState) : NbState :=
  { s with time := 10, sigma := Real.sqrt (2 * s.D * 3 * 10) }

/-- Cell 16: `time = 1.*space**2/(2*D*3)` reading the current `D`. -/
noncomputable def cell16 (s : NbState) : NbState :=
  { s with time := 1 * (space : ℝ) ^ 2 / (2 * s.D * 3) }

/-- The state after executing all code cells in notebook order. -/
noncomputable def notebookFinal : NbState :=
  cell16 (cell14 (cell10 (cell9 (cell7 (cell5 {})))))

/-! ## Rendering of the printed messages

Cells 14 and 16 print with Python's `%` formatting (`%.2f`, `%.1f`).
`formatFixed` renders a rational in fixed-point notation with `prec`
digits after the point, rounding to nearest (the inputs the notebook
formats never fall on a tie, so the tie-breaking rule is irrelevant). -/

/-- Fixed-point rendering of a rational with `prec` decimal digits,
modelling Python's `'%.<prec>f' % x` at the values the notebook prints. -/
def formatFixed (prec : Nat) (x : ℚ) : String :=
  let scaled : Int := round (x * (10 : ℚ) ^ prec)
  let mag := scaled.natAbs
  let ipStr := toString (mag / 10 ^ prec)
  let fpStr := toString (mag % 10 ^ prec)
  let fpPad := String.mk (List.replicate (prec - fpStr.length) '0') ++ fpStr
  (if scaled < 0 then "-" else "") ++ ipStr ++ "." ++ fpPad

/-- Cell 14: `'Displacement (std_dev): %.2f um' % (sigma*1e6)`. -/
def displacementMessage (s2 : ℚ) : String :=
  "Displacement (std_dev): " ++ formatFixed 2 (s2 * 1e6) ++ " um"

/-- Cell 16: `'Time for %.1f um displacement: %.1f s' % (space*1e6, time)`. -/
def timeMessage (sp t : ℚ) : String :=
  "Time for " ++ formatFixed 1 (sp * 1e6) ++ " um displacement: " ++
    formatFixed 1 t ++ " s"

/-! ## Validating evaluators (spec §4.1 / §7)

The notebook performs no input validation; the spec prescribes a single
`InvalidArgument` error kind, raised exactly when a formula's
denominator would be non-positive or its square-root radicand negative.
These evaluators are modelled from the spec because that validation
logic exists nowhere in src/. -/

/-- Modelled from the spec: the single error kind of §7, `InvalidArgument`
(no validating code exists in the notebook source). -/
inductive EvalError where
  | invalidArgument
deriving DecidableEq

/-- Modelled from the spec: Stokes–Einstein evaluation
`D = kB*T/(3*π*eta*d)` guarded per §7 — `InvalidArgument` exactly when
the denominator `3*π*eta*d` is non-positive (validation absent from the
notebook source). -/
def evalStokesD (kBv Tv etav dv : ℚ) : Except EvalError ℚ :=
  if 3 * np_pi * etav * dv ≤ 0 then Except.error EvalError.invalidArgument
  else Except.ok (kBv * Tv / (3 * np_pi * etav * dv))

/-- Modelled from the spec: spot-based evaluation `D = S**2/(2*N*tau)`
guarded per §7 — `InvalidArgument` exactly when the denominator
`2*N*tau` is non-positive (validation absent from the notebook source). -/
def evalSpotD (S n tau : ℚ) : Except EvalError ℚ :=
  if 2 * n * tau ≤ 0 then Except.error EvalError.invalidArgument
  else Except.ok (S ^ 2 / (2 * n * tau))

/-- Modelled from the spec: diffusion-time evaluation
`time = space**2/(2*D*N)` guarded per §7 — `InvalidArgument` exactly when
the denominator `2*D*N` is non-positive (validation absent from the
notebook source). -/
def evalDiffusionTime (sp Dv n : ℚ) : Except EvalError ℚ :=
  if 2 * Dv * n ≤ 0 then Except.error EvalError.invalidArgument
  else Except.ok (sp ^ 2 / (2 * Dv * n))

/-- Modelled from the spec: displacement-std-dev evaluation
`sigma = sqrt(2*D*N*time)` guarded per §7 — `InvalidArgument` exactly
when the radicand `2*D*N*time` is negative (validation absent from the
notebook source). -/
noncomputable def evalSigma (Dv n t : ℝ) : Except EvalError ℝ :=
  if 2 * Dv * n * t < 0 then Except.error EvalError.invalidArgument
  else Except.ok (Real.sqrt (2 * Dv * n * t))

/-! ## Theorems -/

/-- C1: with `d = 5e-9`, `eta = 1.0e-3`, `kB = 1.38e-23`, `T = 293`, the
Stokes–Einstein evaluation `D = kB*T/(3*π*eta*d)` is approximately
`8.580e-11` m²/s, and rescaling by `(1e9)²/1e6` gives approximately
`85.80` nm²/µs. -/
theorem stokes_example_value :
    |D_stokes - 8.580e-11| < 1e-14 ∧ |Du_stokes - 85.80| < 1e-2 := by
  constructor <;>
  · rw [abs_sub_lt_iff]
    constructor <;> norm_num [D_stokes, Du_stokes, np_pi, kB, T, eta, d]

/-- C2: with `S_spot = 0.8e-6`, `N = 3`, `tau_spot = 1e-3`, the spot-based
evaluation `D = S_spot²/(2·N·tau_spot)` is approximately `1.0667e-10`
m²/s, and rescaling by `(1e6)²/1e3` gives approximately `0.10667`
µm²/ms. -/
theorem spot_example_value :
    |D_spot - 1.0667e-10| < 1e-14 ∧ |Du_spot - 0.10667| < 1e-5 := by
  constructor <;>
  · rw [abs_sub_lt_iff]
    constructor <;> norm_num [D_spot, Du_spot, S_spot, N, tau_spot]

/-- C3: with the spot-derived `D`, `N = 3` and `time = 10` s, the
displacement standard deviation `sigma = sqrt(2·D·N·time)` is exactly
`8e-5` m (80.00 µm), and the rendered output is
`"Displacement (std_dev): 80.00 um"`. -/
theorem sigma_example_value :
    sigma14 = (8e-5 : ℝ) ∧ sigma14 * 1e6 = 80 ∧
      displacementMessage 8e-5 = "Displacement (std_dev): 80.00 um" := by
  have h : sigma14 = (8e-5 : ℝ) := by
    unfold sigma14
    have hrad : (2 * (D_spot : ℝ) * 3 * (time14 : ℝ)) = (8e-5 : ℝ) ^ 2 := by
      norm_num [D_spot, S_spot, N, tau_spot, time14]
    rw [hrad, Real.sqrt_sq (by norm_num)]
  have hmsg : displacementMessage 8e-5 = "Displacement (std_dev): 80.00 um" := by
    have h1 : round ((8e-5 : ℚ) * 1e6 * 10 ^ 2) = 8000 := by
      rw [round_eq]; norm_num
    simp only [displacementMessage, formatFixed]
    rw [h1]
    decide
  refine ⟨h, by rw [h]; norm_num, hmsg⟩

/-- C4: with the spot-derived `D`, `N = 3` and `space = 0.1e-3` m, the
diffusion time `time = space²/(2·D·N)` is approximately `15.6` s
(exactly 15.625 s), and the rendered output is
`"Time for 100.0 um displacement: 15.6 s"`. -/
theorem time_example_value :
    |time16 - 15.6| < 5e-2 ∧
      timeMessage space time16 = "Time for 100.0 um displacement: 15.6 s" := by
  constructor
  · rw [abs_sub_lt_iff]
    constructor <;> norm_num [time16, space, D_spot, S_spot, N, tau_spot]
  · have h1 : round (space * 1e6 * 10 ^ 1) = 1000 := by
      rw [round_eq]; norm_num [space]
    have h2 : round (time16 * 10 ^ 1) = 156 := by
      rw [round_eq]; norm_num [time16, space, D_spot, S_spot, N, tau_spot]
    simp only [timeMessage, formatFixed]
    rw [h1, h2]
    decide

/-- C6: `D` is assigned twice (Stokes–Einstein in cell 5, spot-based in
cell 9); the second assignment discards the first value, so the sigma
and time computations of cells 14 and 16 read the spot-derived value,
which differs from the Stokes–Einstein value. -/
theorem second_assignment_shadows :
    notebookFinal.sigma = Real.sqrt (2 * (D_spot : ℝ) * 3 * 10)
    ∧ notebookFinal.time = 1 * (space : ℝ) ^ 2 / (2 * (D_spot : ℝ) * 3)
    ∧ (cell9 (cell7 (cell5 {}))).D = (D_spot : ℝ)
    ∧ D_stokes ≠ D_spot := by
  refine ⟨rfl, rfl, rfl, ?_⟩
  norm_num [D_stokes, D_spot, np_pi, kB, T, eta, d, S_spot, N, tau_spot]

/-- C5: each validating evaluator fails with the single error kind
`InvalidArgument` exactly when its denominator is non-positive (resp.
its radicand is negative), and returns the formula's value for all other
inputs. -/
theorem eval_invalid_argument_iff :
    (∀ kBv Tv etav dv : ℚ,
      (evalStokesD kBv Tv etav dv = Except.error EvalError.invalidArgument ↔
        3 * np_pi * etav * dv ≤ 0) ∧
      (0 < 3 * np_pi * etav * dv →
        evalStokesD kBv Tv etav dv = Except.ok (kBv * Tv / (3 * np_pi * etav * dv))))
    ∧ (∀ S n tau : ℚ,
      (evalSpotD S n tau = Except.error EvalError.invalidArgument ↔ 2 * n * tau ≤ 0) ∧
      (0 < 2 * n * tau → evalSpotD S n tau = Except.ok (S ^ 2 / (2 * n * tau))))
    ∧ (∀ sp Dv n : ℚ,
      (evalDiffusionTime sp Dv n = Except.error EvalError.invalidArgument ↔ 2 * Dv * n ≤ 0) ∧
      (0 < 2 * Dv * n → evalDiffusionTime sp Dv n = Except.ok (sp ^ 2 / (2 * Dv * n))))
    ∧ (∀ Dv n t : ℝ,
      (evalSigma Dv n t = Except.error EvalError.invalidArgument ↔ 2 * Dv * n * t < 0) ∧
      (0 ≤ 2 * Dv * n * t → evalSigma Dv n t = Except.ok (Real.sqrt (2 * Dv * n * t)))) := by
  refine ⟨fun kBv Tv etav dv => ?_, fun S n tau => ?_, fun sp Dv n => ?_, fun Dv n t => ?_⟩
  · unfold evalStokesD
    split_ifs with h
    · exact ⟨iff_of_true rfl h, fun hpos => ((not_le.mpr hpos) h).elim⟩
    · exact ⟨by simp [h], fun _ => rfl⟩
  · unfold evalSpotD
    split_ifs with h
    · exact ⟨iff_of_true rfl h, fun hpos => ((not_le.mpr hpos) h).elim⟩
    · exact ⟨by simp [h], fun _ => rfl⟩
  · unfold evalDiffusionTime
    split_ifs with h
    · exact ⟨iff_of_true rfl h, fun hpos => ((not_le.mpr hpos) h).elim⟩
    · exact ⟨by simp [h], fun _ => rfl⟩
  · unfold evalSigma
    split_ifs with h
    · exact ⟨iff_of_true rfl h, fun hge => ((not_lt.mpr hge) h).elim⟩
    · exact ⟨by simp [h], fun _ => rfl⟩

/-- Witness for C5: the spot evaluator succeeds at the notebook's own
inputs and fails with `InvalidArgument` at a negative `tau_spot`. -/
theorem eval_invalid_argument_iff_witness :
    evalSpotD S_spot 3 tau_spot = Except.ok (S_spot ^ 2 / (2 * 3 * tau_spot))
    ∧ evalSpotD S_spot 3 (-1e-3) = Except.error EvalError.invalidArgument :=
  ⟨(eval_invalid_argument_iff.2.1 S_spot 3 tau_spot).2 (by norm_num [tau_spot]),
   (eval_invalid_argument_iff.2.1 S_spot 3 (-1e-3)).1.mpr (by norm_num)⟩

/-- C7: for positive `S_spot`, positive integer `N` and positive
`tau_spot`, the spot formula `S²/(2·N·tau)` is strictly positive, and for
fixed `S` and `N` it strictly decreases as `tau` increases. -/
theorem spot_formula_pos_antitone (S : ℚ) (n : ℕ) (tau : ℚ)
    (hS : 0 < S) (hn : 0 < n) (htau : 0 < tau) :
    0 < D_spot_fn S n tau ∧
      ∀ tau2 : ℚ, tau < tau2 → D_spot_fn S n tau2 < D_spot_fn S n tau := by
  have hn' : (0 : ℚ) < (n : ℚ) := by exact_mod_cast hn
  constructor
  · unfold D_spot_fn
    positivity
  · intro tau2 hlt
    unfold D_spot_fn
    exact div_lt_div_of_pos_left (by positivity) (by positivity)
      (mul_lt_mul_of_pos_left hlt (by positivity))

/-- Witness for C7: at the notebook's own spot inputs the formula is
positive, and doubling `tau_spot` strictly decreases it. -/
theorem spot_formula_pos_antitone_witness :
    0 < D_spot_fn S_spot 3 tau_spot ∧
      D_spot_fn S_spot 3 (2e-3) < D_spot_fn S_spot 3 tau_spot :=
  ⟨(spot_formula_pos_antitone S_spot 3 tau_spot (by norm_num [S_spot]) (by norm_num)
      (by norm_num [tau_spot])).1,
   (spot_formula_pos_antitone S_spot 3 tau_spot (by norm_num [S_spot]) (by norm_num)
      (by norm_num [tau_spot])).2 (2e-3) (by norm_num [tau_spot])⟩

/-- C8: `sigma(D, N, time) = sqrt(2·D·N·time)` is monotonically
non-decreasing in each of `D`, `N` and `time` separately, the other two
held fixed, over non-negative arguments. -/
theorem sigma_formula_monotone :
    (∀ D1 D2 n t : ℝ, 0 ≤ D1 → 0 ≤ n → 0 ≤ t → D1 ≤ D2 →
      sigma_fn D1 n t ≤ sigma_fn D2 n t)
    ∧ (∀ Dv n1 n2 t : ℝ, 0 ≤ Dv → 0 ≤ n1 → 0 ≤ t → n1 ≤ n2 →
      sigma_fn Dv n1 t ≤ sigma_fn Dv n2 t)
    ∧ (∀ Dv n t1 t2 : ℝ, 0 ≤ Dv → 0 ≤ n → 0 ≤ t1 → t1 ≤ t2 →
      sigma_fn Dv n t1 ≤ sigma_fn Dv n t2) := by
  refine ⟨fun D1 D2 n t hD hn ht hle => ?_, fun Dv n1 n2 t hD hn ht hle => ?_,
    fun Dv n t1 t2 hD hn ht hle => ?_⟩ <;>
  · unfold sigma_fn
    apply Real.sqrt_le_sqrt
    gcongr

/-- Witness for C8: each monotonicity clause applied at concrete
non-negative inputs. -/
theorem sigma_formula_monotone_witness :
    sigma_fn 1 1 1 ≤ sigma_fn 2 1 1 ∧ sigma_fn 1 1 1 ≤ sigma_fn 1 2 1 ∧
      sigma_fn 1 1 1 ≤ sigma_fn 1 1 2 :=
  ⟨sigma_formula_monotone.1 1 2 1 1 (by norm_num) (by norm_num) (by norm_num) (by norm_num),
   sigma_formula_monotone.2.1 1 1 2 1 (by norm_num) (by norm_num) (by norm_num) (by norm_num),
   sigma_formula_monotone.2.2 1 1 1 2 (by norm_num) (by norm_num) (by norm_num) (by norm_num)⟩

/-- C9: computing `time = sigma²/(2·D·N)` (the inverse of the
standard-deviation formula) and then recomputing `sqrt(2·D·N·time)`
reproduces the original `sigma` exactly, for `sigma ≥ 0` and positive `D`
and `N`. -/
theorem sigma_time_roundtrip (s2 Dv n : ℝ) (hs : 0 ≤ s2) (hD : 0 < Dv) (hn : 0 < n) :
    sigma_fn Dv n (time_fn s2 Dv n) = s2 := by
  unfold sigma_fn time_fn
  have hne : 2 * Dv * n ≠ 0 := by positivity
  have h : 2 * Dv * n * (s2 ^ 2 / (2 * Dv * n)) = s2 ^ 2 := by
    field_simp
  rw [h, Real.sqrt_sq hs]

/-- Witness for C9: the round trip at `sigma = 2`, `D = 1`, `N = 1`. -/
theorem sigma_time_roundtrip_witness : sigma_fn 1 1 (time_fn 2 1 1) = 2 :=
  sigma_time_roundtrip 2 1 1 (by norm_num) (by norm_num) (by norm_num)

/-- C10: the two unit rescalings are multiplication by the fixed positive
power-of-ten factors `(1e9)²/1e6 = 1e12` and `(1e6)²/1e3 = 1e9`, and
multiplying the rescaled value by the factor's inverse reproduces the
original `D` exactly. -/
theorem rescale_roundtrip :
    ((1e9 : ℚ) ^ 2 / 1e6 = 1e12 ∧ (0 : ℚ) < 1e12 ∧
      (1e6 : ℚ) ^ 2 / 1e3 = 1e9 ∧ (0 : ℚ) < 1e9)
    ∧ ∀ Dv : ℚ,
      Du_nm_us_fn Dv * ((1e9 : ℚ) ^ 2 / 1e6)⁻¹ = Dv ∧
      Du_um_ms_fn Dv * ((1e6 : ℚ) ^ 2 / 1e3)⁻¹ = Dv := by
  refine ⟨⟨by norm_num, by norm_num, by norm_num, by norm_num⟩, fun Dv => ⟨?_, ?_⟩⟩ <;>
  · simp only [Du_nm_us_fn, Du_um_ms_fn]
    rw [div_mul_eq_mul_div, div_eq_iff (by norm_num)]
    ring_nf

end PyBroMoTheory
